import Mathlib

/-
Verification of the ignis HTTP request helper (rs-infra/helpers).

The repository is glue code over an HTTP client library: a `BaseFetcher`
owning a base URL, default headers and a pooled client (two near-duplicate
implementations, `base_fetcher.rs` and `fetcher.rs`), a `NetworkRequest`
facade adding a JSON content-type default header, and an `ApplicationError`
type.  Strings are embedded as lists of characters, header maps as
association lists, durations as natural numbers of seconds.  The effect of
`send` is embedded as the request-builder value it hands to the transport
layer for dispatch.
-/

namespace Ignis

/-- Rust strings, embedded as lists of characters. -/
abbrev Str := List Char

/-- Rust `str::trim_end_matches('/')`: removes every trailing slash. -/
def trimEndSlash (s : Str) : Str :=
  (s.reverse.dropWhile (fun c => c = '/')).reverse

/-- Rust `str::trim_start_matches('/')`: removes every leading slash. -/
def trimStartSlash (s : Str) : Str :=
  s.dropWhile (fun c => c = '/')

/-- `reqwest::header::HeaderMap`, embedded as an association list of
header-name / header-value pairs; lookup returns the first entry with the
given key. -/
abbrev HeaderMap := List (Str × Str)

/-- Lookup of a header key in a header map (first match wins). -/
def headerLookup (k : Str) : HeaderMap → Option Str
  | [] => none
  | (k', v) :: rest => if k' = k then some v else headerLookup k rest

/-- Rust `HeaderMap::entry(k).or_insert(v)`: inserts `(k, v)` only when no
entry with key `k` exists; otherwise the map is returned unchanged. -/
def entryOrInsert (k v : Str) (m : HeaderMap) : HeaderMap :=
  match headerLookup k m with
  | some _ => m
  | none => m ++ [(k, v)]

/-- `serde_json::Value`: the JSON values carried opaquely as request bodies
and query objects. -/
inductive Value where
  | null : Value
  | bool : Bool → Value
  | num : Int → Value
  | str : Str → Value
  | arr : List Value → Value
  | obj : List (Str × Value) → Value

/-- `http::Method`, restricted to the verbs this repository uses. -/
inductive Method where
  | GET | POST | PUT | PATCH | DELETE
  deriving DecidableEq, Repr

/-- The `Default` impl of `http::Method` yields `GET`. -/
def Method.default : Method := Method.GET

/-- `std::time::Duration`, embedded as a number of seconds. -/
abbrev Duration := Nat

/-- `Duration::from_mins(m)`: `m` minutes as a duration. -/
def Duration.from_mins (m : Nat) : Duration := m * 60

/-- `const TIME_OUT: Duration = Duration::from_mins(1);` -/
def TIME_OUT : Duration := Duration.from_mins 1

/-- The configuration handed to the transport client builder:
`Client::builder().timeout(t).default_headers(h)`. -/
structure ClientConfig where
  timeout : Option Duration := none
  default_headers : HeaderMap := []
  deriving DecidableEq

/-- `reqwest::Client`: a built transport client carrying its configuration. -/
structure Client where
  config : ClientConfig
  deriving DecidableEq

/-- Modelled from the spec: validity of a default header value as enforced by
the transport layer; a malformed value (one containing a control character)
makes the client builder fail. -/
def validHeaderValue (v : Str) : Bool :=
  v.all (fun c => c = '\t' || (decide (32 ≤ c.toNat) && decide (c.toNat ≠ 127)))

/-- Modelled from the spec: `Client::builder()....build()`, which fails when
a default header value is malformed and otherwise yields a client with the
given configuration. -/
def buildClient (cfg : ClientConfig) : Except Unit Client :=
  if cfg.default_headers.all (fun kv => validHeaderValue kv.2) then
    Except.ok ⟨cfg⟩
  else
    Except.error ()

/-- `reqwest::Client::new()`: a client with library-default configuration
(no explicit timeout, empty default header set). -/
def Client.new : Client := ⟨{}⟩

/-- `RequestOptions` (identical in `base_fetcher.rs` and `fetcher.rs`): the
per-call request spec.  The field defaults are those of the derived
`Default` impl (`Method`'s default is `GET`). -/
structure RequestOptions where
  url : Str := []
  method : Method := Method.default
  headers : Option HeaderMap := none
  bearer_auth : Option Str := none
  body : Option Value := none
  query : Option Value := none

/-- `RequestOptions::default()`. -/
def RequestOptions.mkDefault : RequestOptions := {}

/-- `reqwest::RequestBuilder`: the request under construction.  `send`
returns this value, the request it hands to the transport layer. -/
structure RequestBuilder where
  client : Client
  method : Method
  url : Str
  headers : HeaderMap := []
  bearer_auth : Option Str := none
  body : Option Value := none
  query : Option Value := none

/-- `Client::request(method, url)`: a fresh request builder. -/
def Client.request (c : Client) (m : Method) (u : Str) : RequestBuilder :=
  { client := c, method := m, url := u }

/-- `RequestBuilder::headers(hs)`: inserts the given headers into the
builder's header map, replacing any existing value for a key that appears in
the argument (reqwest's `replace_headers` semantics). -/
def RequestBuilder.headersMerge (rb : RequestBuilder) (hs : HeaderMap) : RequestBuilder :=
  { rb with headers := hs ++ rb.headers.filter (fun kv => (headerLookup kv.1 hs).isNone) }

/-- `RequestBuilder::bearer_auth(tok)`. -/
def RequestBuilder.bearerAuth (rb : RequestBuilder) (tok : Str) : RequestBuilder :=
  { rb with bearer_auth := some tok }

/-- `RequestBuilder::json(&body)`. -/
def RequestBuilder.jsonBody (rb : RequestBuilder) (b : Value) : RequestBuilder :=
  { rb with body := some b }

/-- `RequestBuilder::query(&q)`. -/
def RequestBuilder.queryParams (rb : RequestBuilder) (q : Value) : RequestBuilder :=
  { rb with query := some q }

/-- Modelled from the spec: the header set the transport layer actually
sends for a built request — the client's default headers fill in only the
keys the request does not already set (key-level override by the
per-request headers). -/
def sentHeaders (rb : RequestBuilder) : HeaderMap :=
  rb.headers ++
    rb.client.config.default_headers.filter
      (fun kv => (headerLookup kv.1 rb.headers).isNone)

end Ignis

namespace Ignis.BF

/-- `BaseFetcherOptions` of `base_fetcher.rs`: note `name` is a plain
string there (its derived `Default` is the empty string). -/
structure BaseFetcherOptions where
  name : Str := []
  base_url : Str := []
  headers : Option HeaderMap := none
  timeout : Option Duration := none

/-- `BaseFetcherOptions::default()` (`base_fetcher.rs`). -/
def BaseFetcherOptions.mkDefault : BaseFetcherOptions := {}

/-- `BaseFetcher` of `base_fetcher.rs`. -/
structure BaseFetcher where
  name : Str
  base_url : Str
  client : Client

/-- The configuration `BaseFetcher::new` passes to the client builder:
`timeout.unwrap_or(TIME_OUT)` and `headers.unwrap_or_default()`. -/
def clientConfigOf (options : BaseFetcherOptions) : ClientConfig :=
  { timeout := some (options.timeout.getD TIME_OUT)
    default_headers := options.headers.getD [] }

/-- `BaseFetcher::new` (`base_fetcher.rs`): builds the client from the
options, falling back to `Client::new()` when the build fails
(`unwrap_or_else`); never fails the caller. -/
def BaseFetcher.new (options : BaseFetcherOptions) : BaseFetcher :=
  let client : Client :=
    match buildClient (clientConfigOf options) with
    | Except.ok c => c
    | Except.error _ => Client.new
  { name := options.name, base_url := options.base_url, client := client }

/-- `BaseFetcher::get_request_url`:
`format!("{}/{}", base_url.trim_end_matches('/'), path.trim_start_matches('/'))`. -/
def BaseFetcher.get_request_url (self : BaseFetcher) (path : Str) : Str :=
  trimEndSlash self.base_url ++ '/' :: trimStartSlash path

/-- `BaseFetcher::send` (`base_fetcher.rs`): resolves the URL, builds the
request step by step and hands it to the transport layer; the returned
builder is the dispatched request. -/
def BaseFetcher.send (self : BaseFetcher) (options : RequestOptions) : RequestBuilder :=
  let url : Str := self.get_request_url options.url
  let rb : RequestBuilder := self.client.request options.method url
  let rb : RequestBuilder :=
    match options.headers with
    | some headers_data => rb.headersMerge headers_data
    | none => rb
  let rb : RequestBuilder :=
    match options.bearer_auth with
    | some bearer_auth_data => rb.bearerAuth bearer_auth_data
    | none => rb
  let rb : RequestBuilder :=
    match options.body with
    | some body_data => rb.jsonBody body_data
    | none => rb
  let rb : RequestBuilder :=
    match options.query with
    | some query_data => rb.queryParams query_data
    | none => rb
  rb

/-- Verb sugar `get`: struct-update the method to `GET`, delegate to `send`. -/
def BaseFetcher.get (self : BaseFetcher) (options : RequestOptions) : RequestBuilder :=
  self.send { options with method := Method.GET }

/-- Verb sugar `post`. -/
def BaseFetcher.post (self : BaseFetcher) (options : RequestOptions) : RequestBuilder :=
  self.send { options with method := Method.POST }

/-- Verb sugar `put`. -/
def BaseFetcher.put (self : BaseFetcher) (options : RequestOptions) : RequestBuilder :=
  self.send { options with method := Method.PUT }

/-- Verb sugar `patch`. -/
def BaseFetcher.patch (self : BaseFetcher) (options : RequestOptions) : RequestBuilder :=
  self.send { options with method := Method.PATCH }

/-- Verb sugar `delete`. -/
def BaseFetcher.delete (self : BaseFetcher) (options : RequestOptions) : RequestBuilder :=
  self.send { options with method := Method.DELETE }

end Ignis.BF

namespace Ignis.F2

/-- `BaseFetcherOptions` of `fetcher.rs`: here `name` is `Option<String>`
(its derived `Default` is `None`), so a caller may omit the name. -/
structure BaseFetcherOptions where
  name : Option Str := none
  base_url : Str := []
  headers : Option HeaderMap := none
  timeout : Option Duration := none

/-- `BaseFetcherOptions::default()` (`fetcher.rs`): in particular its name
is `None`. -/
def BaseFetcherOptions.mkDefault : BaseFetcherOptions := {}

/-- `BaseFetcher` of `fetcher.rs`. -/
structure BaseFetcher where
  name : Option Str
  base_url : Str
  client : Client

/-- The name of the standard `Content-Type` header. -/
def CONTENT_TYPE : Str := ("content-type").data

/-- The default JSON content-type value inserted by this repository. -/
def APPLICATION_JSON : Str := ("application/json").data

/-- `BaseFetcher::new` (`fetcher.rs`): like the `base_fetcher.rs` variant but
additionally inserts a `Content-Type: application/json` default header when
the caller supplied none. -/
def BaseFetcher.new (options : BaseFetcherOptions) : BaseFetcher :=
  let timeout_value : Duration := options.timeout.getD TIME_OUT
  let default_headers : HeaderMap :=
    entryOrInsert CONTENT_TYPE APPLICATION_JSON (options.headers.getD [])
  let cfg : ClientConfig :=
    { timeout := some timeout_value, default_headers := default_headers }
  let client : Client :=
    match buildClient cfg with
    | Except.ok c => c
    | Except.error _ => Client.new
  { name := options.name, base_url := options.base_url, client := client }

/-- `BaseFetcher::send` (`fetcher.rs`): the URL join is inlined
(`format!("{}/{}", base_url.trim_end_matches('/'), url.trim_start_matches('/'))`),
then the request is built step by step exactly as in `base_fetcher.rs`. -/
def BaseFetcher.send (self : BaseFetcher) (options : RequestOptions) : RequestBuilder :=
  let full_url : Str :=
    trimEndSlash self.base_url ++ '/' :: trimStartSlash options.url
  let rb : RequestBuilder := self.client.request options.method full_url
  let rb : RequestBuilder :=
    match options.headers with
    | some headers_data => rb.headersMerge headers_data
    | none => rb
  let rb : RequestBuilder :=
    match options.bearer_auth with
    | some bearer_auth_data => rb.bearerAuth bearer_auth_data
    | none => rb
  let rb : RequestBuilder :=
    match options.body with
    | some body_data => rb.jsonBody body_data
    | none => rb
  let rb : RequestBuilder :=
    match options.query with
    | some query_data => rb.queryParams query_data
    | none => rb
  rb

end Ignis.F2

namespace Ignis

/-- `NetworkRequestOptions` (`network_request.rs`). -/
structure NetworkRequestOptions where
  name : Str := []
  base_url : Str := []
  headers : Option HeaderMap := none

/-- The default header set the facade passes to its owned fetcher: the
`default_headers` value computed in `NetworkRequest::new`
(`headers.unwrap_or_default()` then `entry(CONTENT_TYPE).or_insert("application/json")`). -/
def mergedDefaultHeaders (options : NetworkRequestOptions) : HeaderMap :=
  entryOrInsert F2.CONTENT_TYPE F2.APPLICATION_JSON (options.headers.getD [])

/-- `NetworkRequest` (`network_request.rs`): owns a duplicated base URL and a
`base_fetcher.rs` fetcher. -/
structure NetworkRequest where
  base_url : Str
  fetcher : BF.BaseFetcher

/-- `NetworkRequest::new`: merges the content-type default into the caller's
headers and constructs the owned fetcher with them (the remaining fetcher
options come from `..Default::default()`, so `timeout` is `None`). -/
def NetworkRequest.new (options : NetworkRequestOptions) : NetworkRequest :=
  let fetcher_options : BF.BaseFetcherOptions :=
    { name := options.name
      base_url := options.base_url
      headers := some (mergedDefaultHeaders options)
      timeout := none }
  let fetcher : BF.BaseFetcher := BF.BaseFetcher.new fetcher_options
  { base_url := options.base_url, fetcher := fetcher }

/-- `NetworkRequest::get_fetcher`: returns the owned fetcher. -/
def NetworkRequest.get_fetcher (self : NetworkRequest) : BF.BaseFetcher :=
  self.fetcher

/-- `ApplicationError` (`error.rs`); `status_code` is a `u16`. -/
structure ApplicationError where
  status_code : Nat
  message_code : Option Str
  message : Str
  payload : Option Value

/-- `ApplicationErrorOptions` (`error.rs`), with its derived `Default`. -/
structure ApplicationErrorOptions where
  message : Str := []
  status_code : Option Nat := none
  message_code : Option Str := none
  payload : Option Value := none

/-- `ApplicationError::new`: copies the options, defaulting the status code
to 400 when unspecified. -/
def ApplicationError.new (options : ApplicationErrorOptions) : ApplicationError :=
  { message := options.message
    status_code := options.status_code.getD 400
    message_code := options.message_code
    payload := options.payload }

/-- Helper: the first element surviving `dropWhile p` does not satisfy `p`. -/
theorem head_dropWhile_false (p : Char → Bool) (l : Str) (a : Char)
    (h : (l.dropWhile p).head? = some a) : p a = false := by
  induction l with
  | nil => simp [List.dropWhile] at h
  | cons x xs ih =>
    rw [List.dropWhile_cons] at h
    by_cases hx : p x
    · rw [if_pos hx] at h; exact ih h
    · rw [if_neg hx] at h
      simp at h
      rw [← h]
      simpa using hx

/-- Helper: `trimStartSlash` never leaves a leading slash. -/
theorem trimStartSlash_head (p : Str) : (trimStartSlash p).head? ≠ some '/' := by
  intro h
  have := head_dropWhile_false (fun c => c = '/') p '/' h
  simp at this

/-- Helper: `trimEndSlash` never leaves a trailing slash. -/
theorem trimEndSlash_getLast (b : Str) : (trimEndSlash b).getLast? ≠ some '/' := by
  intro h
  rw [trimEndSlash, List.getLast?_reverse] at h
  have := head_dropWhile_false (fun c => c = '/') b.reverse '/' h
  simp at this

/-- Helper: a key found in the left map is found in the concatenation. -/
theorem headerLookup_append_left (k : Str) (m₁ m₂ : HeaderMap) (v : Str)
    (h : headerLookup k m₁ = some v) : headerLookup k (m₁ ++ m₂) = some v := by
  induction m₁ with
  | nil => simp [headerLookup] at h
  | cons kv rest ih =>
    rw [List.cons_append]
    rw [headerLookup] at h ⊢
    by_cases hk : kv.1 = k
    · rw [if_pos hk] at h ⊢; exact h
    · rw [if_neg hk] at h ⊢; exact ih h

/-- Helper: a key absent from the left map falls through to the right map. -/
theorem headerLookup_append_none (k : Str) (m₁ m₂ : HeaderMap)
    (h : headerLookup k m₁ = none) : headerLookup k (m₁ ++ m₂) = headerLookup k m₂ := by
  induction m₁ with
  | nil => simp
  | cons kv rest ih =>
    rw [List.cons_append]
    rw [headerLookup] at h ⊢
    by_cases hk : kv.1 = k
    · rw [if_pos hk] at h; exact absurd h (by simp)
    · rw [if_neg hk] at h ⊢; exact ih h

/-- Helper: the URL of the request built by `base_fetcher.rs`'s `send` is the
resolved URL of the spec's path. -/
theorem BF.send_resolved_url (f : BF.BaseFetcher) (options : RequestOptions) :
    (f.send options).url = f.get_request_url options.url := by
  rcases options with ⟨u, m, h, ba, b, q⟩
  cases h <;> cases ba <;> cases b <;> cases q <;> rfl

/-- Helper: the URL of the request built by `fetcher.rs`'s `send` uses the
same join formula. -/
theorem F2.send_joined_url (g : F2.BaseFetcher) (options : RequestOptions) :
    (g.send options).url = trimEndSlash g.base_url ++ '/' :: trimStartSlash options.url := by
  rcases options with ⟨u, m, h, ba, b, q⟩
  cases h <;> cases ba <;> cases b <;> cases q <;> rfl

/-- C1: the resolved URL equals the base URL with all trailing slashes
trimmed, then a single slash, then the path with all leading slashes
trimmed — both in `get_request_url` and in the join performed inside each
`send` — with exactly one slash at the join point (the trimmed base never
ends in a slash, the trimmed path never starts with one), and the two
example resolutions from the spec yield `https://api.example.com/v1/ping`. -/
theorem C1_resolved_url (f : BF.BaseFetcher) (g : F2.BaseFetcher) (p : Str)
    (options : RequestOptions) :
    f.get_request_url p = trimEndSlash f.base_url ++ '/' :: trimStartSlash p ∧
    (f.send options).url = trimEndSlash f.base_url ++ '/' :: trimStartSlash options.url ∧
    (g.send options).url = trimEndSlash g.base_url ++ '/' :: trimStartSlash options.url ∧
    (trimEndSlash f.base_url).getLast? ≠ some '/' ∧
    (trimStartSlash p).head? ≠ some '/' ∧
    (BF.BaseFetcher.new
        { base_url := ("https://api.example.com/").data }).get_request_url
        (("/v1/ping").data) = ("https://api.example.com/v1/ping").data ∧
    (BF.BaseFetcher.new
        { base_url := ("https://api.example.com").data }).get_request_url
        (("v1/ping").data) = ("https://api.example.com/v1/ping").data := by
  refine ⟨rfl, BF.send_resolved_url f options, F2.send_joined_url g options,
    trimEndSlash_getLast f.base_url, trimStartSlash_head p, by decide, by decide⟩

/-- C2: each verb method returns exactly `send` applied to the spec with the
method field replaced by the fixed verb and every other field (url, headers,
bearer_auth, body, query) unchanged. -/
theorem C2_verb_sugar (f : BF.BaseFetcher) (options : RequestOptions) :
    f.get options =
      f.send { url := options.url, method := Method.GET,
               headers := options.headers, bearer_auth := options.bearer_auth,
               body := options.body, query := options.query } ∧
    f.post options =
      f.send { url := options.url, method := Method.POST,
               headers := options.headers, bearer_auth := options.bearer_auth,
               body := options.body, query := options.query } ∧
    f.put options =
      f.send { url := options.url, method := Method.PUT,
               headers := options.headers, bearer_auth := options.bearer_auth,
               body := options.body, query := options.query } ∧
    f.patch options =
      f.send { url := options.url, method := Method.PATCH,
               headers := options.headers, bearer_auth := options.bearer_auth,
               body := options.body, query := options.query } ∧
    f.delete options =
      f.send { url := options.url, method := Method.DELETE,
               headers := options.headers, bearer_auth := options.bearer_auth,
               body := options.body, query := options.query } := by
  exact ⟨rfl, rfl, rfl, rfl, rfl⟩

/-- Helper: the per-request headers of the request built by `send` are
exactly the spec's overlay (empty when no overlay was given). -/
theorem BF.send_headers (f : BF.BaseFetcher) (options : RequestOptions) :
    (f.send options).headers = options.headers.getD [] := by
  rcases options with ⟨u, m, h, ba, b, q⟩
  cases h <;> cases ba <;> cases b <;> cases q <;>
    simp [BF.BaseFetcher.send, RequestBuilder.headersMerge, RequestBuilder.bearerAuth,
      RequestBuilder.jsonBody, RequestBuilder.queryParams, Client.request]

/-- Helper: the request built by `send` is dispatched through the fetcher's
own client (whose configuration carries the default headers). -/
theorem BF.send_client (f : BF.BaseFetcher) (options : RequestOptions) :
    (f.send options).client = f.client := by
  rcases options with ⟨u, m, h, ba, b, q⟩
  cases h <;> cases ba <;> cases b <;> cases q <;> rfl

/-- C3: header precedence is per-request overlay over the default set at
send time: when the overlay holds key `k` with value `v`, the sent headers
map `k` to `v` for that call; a call issued without the overlay sends
exactly the client's default header set, and since `send` is a pure
function of the fetcher (it takes it by shared reference and never mutates
it), every such call observes the original defaults. -/
theorem C3_header_precedence (f : BF.BaseFetcher) (ov : HeaderMap) (k v : Str)
    (options : RequestOptions) (hov : headerLookup k ov = some v) :
    headerLookup k (sentHeaders (f.send { options with headers := some ov })) = some v ∧
    sentHeaders (f.send { options with headers := none }) =
      f.client.config.default_headers := by
  constructor
  · rw [sentHeaders, BF.send_headers, BF.send_client]
    exact headerLookup_append_left k ov _ v hov
  · rw [sentHeaders, BF.send_headers, BF.send_client]
    simp [headerLookup]

/-- Witness for C3 at a concrete fetcher: the default set maps `x-a` to `1`,
the overlay maps it to `2`; the overlaid call sends `2`, the plain call
sends exactly the defaults. -/
theorem C3_header_precedence_witness :
    headerLookup (("x-a").data)
      (sentHeaders ((BF.BaseFetcher.new
          { base_url := ("b").data,
            headers := some [((("x-a").data), (("1").data))] }).send
        { url := ("p").data,
          headers := some [((("x-a").data), (("2").data))] })) =
      some (("2").data) ∧
    sentHeaders ((BF.BaseFetcher.new
          { base_url := ("b").data,
            headers := some [((("x-a").data), (("1").data))] }).send
        { url := ("p").data, headers := none }) =
      [((("x-a").data), (("1").data))] := by
  have h := C3_header_precedence
    (BF.BaseFetcher.new
      { base_url := ("b").data, headers := some [((("x-a").data), (("1").data))] })
    [((("x-a").data), (("2").data))] (("x-a").data) (("2").data)
    { url := ("p").data } (by decide)
  exact ⟨h.1, h.2.trans (by decide)⟩

/-- C4: the default header set the facade passes to its owned fetcher always
holds a `Content-Type` entry: when the caller supplied none, the value
`application/json` is inserted; when the caller supplied one, the set is
unchanged and the caller's value is kept; and the owned fetcher is built
from exactly that set. -/
theorem C4_content_type_default (options : NetworkRequestOptions) :
    (headerLookup F2.CONTENT_TYPE (mergedDefaultHeaders options)).isSome = true ∧
    (headerLookup F2.CONTENT_TYPE (options.headers.getD []) = none →
      mergedDefaultHeaders options =
        options.headers.getD [] ++ [(F2.CONTENT_TYPE, F2.APPLICATION_JSON)] ∧
      headerLookup F2.CONTENT_TYPE (mergedDefaultHeaders options) =
        some F2.APPLICATION_JSON) ∧
    (∀ v, headerLookup F2.CONTENT_TYPE (options.headers.getD []) = some v →
      mergedDefaultHeaders options = options.headers.getD [] ∧
      headerLookup F2.CONTENT_TYPE (mergedDefaultHeaders options) = some v) ∧
    (NetworkRequest.new options).fetcher =
      BF.BaseFetcher.new
        { name := options.name, base_url := options.base_url,
          headers := some (mergedDefaultHeaders options), timeout := none } := by
  refine ⟨?_, ?_, ?_, rfl⟩
  · rw [mergedDefaultHeaders, entryOrInsert]
    cases hl : headerLookup F2.CONTENT_TYPE (options.headers.getD []) with
    | none =>
      simp only [hl]
      rw [headerLookup_append_none _ _ _ hl]
      simp [headerLookup]
    | some v => simp [hl]
  · intro hl
    rw [mergedDefaultHeaders, entryOrInsert, hl]
    refine ⟨rfl, ?_⟩
    rw [headerLookup_append_none _ _ _ hl]
    simp [headerLookup]
  · intro v hl
    rw [mergedDefaultHeaders, entryOrInsert, hl]
    exact ⟨rfl, hl⟩

/-- Witness for C4: with no caller headers the merged set is exactly the
inserted JSON content type; with a caller-supplied `Content-Type` the
merged set is the caller's set unchanged. -/
theorem C4_content_type_default_witness :
    mergedDefaultHeaders { base_url := ("b").data } =
      [(F2.CONTENT_TYPE, F2.APPLICATION_JSON)] ∧
    mergedDefaultHeaders
        { base_url := ("b").data,
          headers := some [((F2.CONTENT_TYPE), (("text/plain").data))] } =
      [((F2.CONTENT_TYPE), (("text/plain").data))] := by
  have h1 := (C4_content_type_default { base_url := ("b").data }).2.1 (by decide)
  have h2 := (C4_content_type_default
      { base_url := ("b").data,
        headers := some [((F2.CONTENT_TYPE), (("text/plain").data))] }).2.2.1
    (("text/plain").data) (by decide)
  exact ⟨h1.1.trans (by decide), h2.1⟩

/-- C5: fetcher construction never fails the caller: `new` is total, keeps
the supplied identity, installs the built client when the transport build
succeeds, and falls back to a library-default client (`Client::new()`) when
the build fails instead of propagating the error. -/
theorem C5_lenient_construction (options : BF.BaseFetcherOptions) :
    (BF.BaseFetcher.new options).name = options.name ∧
    (BF.BaseFetcher.new options).base_url = options.base_url ∧
    (∀ c, buildClient (BF.clientConfigOf options) = Except.ok c →
      (BF.BaseFetcher.new options).client = c) ∧
    (∀ e, buildClient (BF.clientConfigOf options) = Except.error e →
      (BF.BaseFetcher.new options).client = Client.new) := by
  refine ⟨rfl, rfl, ?_, ?_⟩
  · intro c hc
    rw [BF.BaseFetcher.new]
    simp only [hc]
  · intro e he
    rw [BF.BaseFetcher.new]
    simp only [he]

/-- Witness for C5: a malformed default header value (a control character)
makes the modelled transport build fail, and construction still returns a
fetcher, with the library-default client. -/
theorem C5_lenient_construction_witness :
    buildClient (BF.clientConfigOf
      { base_url := ("b").data, headers := some [((("x-a").data), ['\n'])] }) =
      Except.error () ∧
    (BF.BaseFetcher.new
      { base_url := ("b").data,
        headers := some [((("x-a").data), ['\n'])] }).client = Client.new := by
  refine ⟨rfl, ?_⟩
  exact (C5_lenient_construction
    { base_url := ("b").data, headers := some [((("x-a").data), ['\n'])] }).2.2.2
    () rfl

/-- C6: the transport client is configured with the supplied timeout when
one is given and with exactly 60 seconds (`TIME_OUT`, one minute) when the
timeout option is absent. -/
theorem C6_timeout_default (options : BF.BaseFetcherOptions) :
    TIME_OUT = 60 ∧
    (options.timeout = none → (BF.clientConfigOf options).timeout = some 60) ∧
    (∀ d, options.timeout = some d → (BF.clientConfigOf options).timeout = some d) := by
  refine ⟨rfl, ?_, ?_⟩
  · intro h
    rw [BF.clientConfigOf, h]
    rfl
  · intro d h
    rw [BF.clientConfigOf, h]
    rfl

/-- Witness for C6: a construction input without a timeout yields a 60
second client timeout; an explicit 5 second timeout is kept. -/
theorem C6_timeout_default_witness :
    (BF.clientConfigOf { base_url := ("b").data }).timeout = some 60 ∧
    (BF.clientConfigOf { base_url := ("b").data, timeout := some 5 }).timeout =
      some 5 :=
  ⟨(C6_timeout_default { base_url := ("b").data }).2.1 rfl,
   (C6_timeout_default { base_url := ("b").data, timeout := some 5 }).2.2 5 rfl⟩

/-- C7: the construction input accepts an optional name: in `fetcher.rs` the
name field is an `Option` whose default is `None`, and a fetcher built
without supplying a name carries no name; in the `base_fetcher.rs`
duplicate the defaulted name is the empty string, so there too a caller may
construct without supplying a name. -/
theorem C7_optional_name (b : Str) :
    F2.BaseFetcherOptions.mkDefault.name = none ∧
    (F2.BaseFetcher.new
      { F2.BaseFetcherOptions.mkDefault with base_url := b }).name = none ∧
    BF.BaseFetcherOptions.mkDefault.name = [] ∧
    (BF.BaseFetcher.new
      { BF.BaseFetcherOptions.mkDefault with base_url := b }).name = [] :=
  ⟨rfl, rfl, rfl, rfl⟩

/-- C8: `ApplicationError::new` uses the supplied status code when given and
400 when unspecified, and copies message, message code and payload
unchanged. -/
theorem C8_application_error (options : ApplicationErrorOptions) :
    (options.status_code = none → (ApplicationError.new options).status_code = 400) ∧
    (∀ c, options.status_code = some c →
      (ApplicationError.new options).status_code = c) ∧
    (ApplicationError.new options).message = options.message ∧
    (ApplicationError.new options).message_code = options.message_code ∧
    (ApplicationError.new options).payload = options.payload := by
  refine ⟨?_, ?_, rfl, rfl, rfl⟩
  · intro h
    rw [ApplicationError.new, h]
    rfl
  · intro c h
    rw [ApplicationError.new, h]
    rfl

/-- Witness for C8: an unspecified status code yields 400, an explicit 404
is kept. -/
theorem C8_application_error_witness :
    (ApplicationError.new { message := ("m").data }).status_code = 400 ∧
    (ApplicationError.new
      { message := ("m").data, status_code := some 404 }).status_code = 404 :=
  ⟨(C8_application_error { message := ("m").data }).1 rfl,
   (C8_application_error
     { message := ("m").data, status_code := some 404 }).2.1 404 rfl⟩

/-- C9: the default request spec has method GET, an empty path and every
optional field absent. -/
theorem C9_default_method :
    RequestOptions.mkDefault.method = Method.GET ∧
    RequestOptions.mkDefault.url = [] ∧
    RequestOptions.mkDefault.headers = none ∧
    RequestOptions.mkDefault.bearer_auth = none ∧
    RequestOptions.mkDefault.body = none ∧
    RequestOptions.mkDefault.query = none :=
  ⟨rfl, rfl, rfl, rfl, rfl, rfl⟩

/-- C10: after facade construction the facade's own base URL, the owned
fetcher's base URL and the caller-supplied base URL all coincide, and
`get_fetcher` returns the owned fetcher unchanged, preserving the
equality. -/
theorem C10_base_url_coherence (options : NetworkRequestOptions) :
    (NetworkRequest.new options).base_url = options.base_url ∧
    (NetworkRequest.new options).fetcher.base_url = options.base_url ∧
    (NetworkRequest.new options).get_fetcher = (NetworkRequest.new options).fetcher ∧
    (NetworkRequest.new options).get_fetcher.base_url =
      (NetworkRequest.new options).base_url :=
  ⟨rfl, rfl, rfl, rfl⟩

end Ignis
